import Mathlib

/-!
# Verification of the plcache disk-backed memoization layer

Shallow embedding of the plcache repository (`src/plcache/decorator.py`,
`src/plcache/path_manager.py`, `src/plcache/symlink_manager.py`) together
with theorems settling the frozen claims about its specification.

Conventions:
* Python strings are Lean `String`s; Python byte values are `Nat`s `< 256`.
* The metadata index (a `diskcache.Cache`), the blob directory and the set of
  symlinks are modelled as association lists keyed by path/key strings.
* Filesystem failures (permission errors, unsupported symlinks) are modelled
  by a `FsEnv` of boolean oracles saying which operations fail.
* Exceptions are modelled with `Except PyErr`.
-/

namespace Plcache

/-! ## Association-list primitives (model of `diskcache.Cache` and directories) -/

/-- First value bound to key `k`, scanning left to right. -/
def lookupKey {β : Type} (k : String) : List (String × β) → Option β
  | [] => none
  | (k', v) :: rest => if k' = k then some v else lookupKey k rest

/-- Remove every binding of key `k` (model of `del cache[key]`). -/
def eraseKey {β : Type} (k : String) (l : List (String × β)) : List (String × β) :=
  l.filter (fun p => p.1 ≠ k)

/-- Bind key `k` to `v`, replacing any previous binding (model of `cache[key] = v`). -/
def setKey {β : Type} (k : String) (v : β) (l : List (String × β)) : List (String × β) :=
  (k, v) :: eraseKey k l

/-! ## Python value and string modelling

The repository fingerprints and names directories from `str()`/`repr()` forms
of the arguments.  We model the slice of Python values the tests and examples
exercise: integers and strings (without embedded quotes or escapes, for which
CPython's `repr` is just the value wrapped in single quotes). -/

inductive PyVal where
  | int (n : Int)
  | str (s : String)
  deriving DecidableEq, Repr

/-- Python `str(value)`: the integer's decimal form, or the string itself. -/
def pyStr : PyVal → String
  | .int n => toString n
  | .str s => s

/-- Python `repr(value)` for the modelled slice: strings gain single quotes. -/
def pyReprV : PyVal → String
  | .int n => toString n
  | .str s => "'" ++ s ++ "'"

/-- Join a list of strings with a separator (Python `sep.join(parts)`). -/
def joinSep (sep : String) : List String → String
  | [] => ""
  | [s] => s
  | s :: rest => s ++ sep ++ joinSep sep rest

/-- Python `str(tuple)`: `()`, `(x,)`, `(a, b)`, elements via `repr`. -/
def tupleRepr : List PyVal → String
  | [] => "()"
  | [v] => "(" ++ pyReprV v ++ ",)"
  | l => "(" ++ joinSep ", " (l.map pyReprV) ++ ")"

/-- Python `str(dict)`: `{\x7b\x7d}`-delimited `'key': value` pairs in insertion order. -/
def dictRepr (l : List (String × PyVal)) : String :=
  "\x7b" ++ joinSep ", " (l.map fun p => "'" ++ p.1 ++ "': " ++ pyReprV p.2) ++ "\x7d"

/-- Python slicing `s[:n]`: the first `n` characters. -/
def pySlice (s : String) (n : Nat) : String :=
  ⟨s.data.take n⟩

/-- The whitespace characters stripped by `str.strip()` (ASCII slice). -/
def isPyWhitespace (c : Char) : Bool :=
  c = ' ' ∨ c = '\t' ∨ c = '\n' ∨ c = '\r' ∨ c = '\x0b' ∨ c = '\x0c'

/-- Python `not s.strip()`: true when `s` is empty or whitespace-only. -/
def pyStripEmpty (s : String) : Bool :=
  s.data.all isPyWhitespace

/-! ## `urllib.parse.quote(value, safe="")`

CPython leaves the `ALWAYS_SAFE` characters (ASCII letters, digits, `_.-~`)
untouched and percent-encodes each UTF-8 byte of every other character with
uppercase hexadecimal digits. -/

/-- The characters `urllib.parse.quote` never escapes (with `safe=""`). -/
def isQuoteSafe (c : Char) : Bool :=
  (('a' ≤ c ∧ c ≤ 'z') ∨ ('A' ≤ c ∧ c ≤ 'Z') ∨ ('0' ≤ c ∧ c ≤ '9')
    ∨ c = '_' ∨ c = '.' ∨ c = '-' ∨ c = '~' : Prop)

/-- Uppercase hexadecimal digit for `n < 16`. -/
def hexUpper (n : Nat) : Char :=
  if n < 10 then Char.ofNat ('0'.toNat + n) else Char.ofNat ('A'.toNat + (n - 10))

/-- Lowercase hexadecimal digit for `n < 16` (as in `hashlib`'s `hexdigest`). -/
def hexLower (n : Nat) : Char :=
  if n < 10 then Char.ofNat ('0'.toNat + n) else Char.ofNat ('a'.toNat + (n - 10))

/-- UTF-8 encoding of a single character, as its list of bytes. -/
def utf8Bytes (c : Char) : List Nat :=
  let n := c.toNat
  if n < 0x80 then [n]
  else if n < 0x800 then [0xC0 + n / 64, 0x80 + n % 64]
  else if n < 0x10000 then [0xE0 + n / 4096, 0x80 + n / 64 % 64, 0x80 + n % 64]
  else [0xF0 + n / 262144, 0x80 + n / 4096 % 64, 0x80 + n / 64 % 64, 0x80 + n % 64]

/-- UTF-8 encoding of a string (Python `s.encode()`). -/
def strUtf8 (s : String) : List Nat :=
  s.data.flatMap utf8Bytes

/-- Percent-encoding of one character: itself when safe, else `%XX` per UTF-8 byte. -/
def quoteChar (c : Char) : List Char :=
  if isQuoteSafe c then [c]
  else (utf8Bytes c).flatMap fun b => ['%', hexUpper (b / 16), hexUpper (b % 16)]

/-- `urllib.parse.quote(s, safe="")`. -/
def pyQuote (s : String) : String :=
  ⟨s.data.flatMap quoteChar⟩

/-- Value of a hexadecimal digit character (either case). -/
def hexVal (c : Char) : Nat :=
  if '0' ≤ c ∧ c ≤ '9' then c.toNat - '0'.toNat
  else if 'A' ≤ c ∧ c ≤ 'F' then c.toNat - 'A'.toNat + 10
  else if 'a' ≤ c ∧ c ≤ 'f' then c.toNat - 'a'.toNat + 10
  else 0

/-- Percent-decoding over characters (`urllib.parse.unquote` restricted to
percent escapes of single-byte code points). -/
def percentDecodeChars : List Char → List Char
  | [] => []
  | c :: h₁ :: h₂ :: rest =>
    if c = '%' then Char.ofNat (16 * hexVal h₁ + hexVal h₂) :: percentDecodeChars rest
    else c :: percentDecodeChars (h₁ :: h₂ :: rest)
  | c :: rest => c :: percentDecodeChars rest

/-- Percent-decoding of a string. -/
def percentDecode (s : String) : String :=
  ⟨percentDecodeChars s.data⟩

/-! ## SHA-256 (`hashlib.sha256(...).hexdigest()`)

Implemented over byte lists with `Nat` arithmetic modulo `2 ^ 32`. -/

/-- Truncate to a 32-bit word. -/
def mod32 (n : Nat) : Nat := n % 4294967296

/-- 32-bit right-rotation. -/
def rotr32 (n x : Nat) : Nat :=
  mod32 ((x >>> n) ||| (x <<< (32 - n)))

/-- The 64 SHA-256 round constants. -/
def sha256K : List Nat :=
  [1116352408, 1899447441, 3049323471, 3921009573, 961987163,
   1508970993, 2453635748, 2870763221, 3624381080, 310598401,
   607225278, 1426881987, 1925078388, 2162078206, 2614888103,
   3248222580, 3835390401, 4022224774, 264347078, 604807628,
   770255983, 1249150122, 1555081692, 1996064986, 2554220882,
   2821834349, 2952996808, 3210313671, 3336571891, 3584528711,
   113926993, 338241895, 666307205, 773529912, 1294757372,
   1396182291, 1695183700, 1986661051, 2177026350, 2456956037,
   2730485921, 2820302411, 3259730800, 3345764771, 3516065817,
   3600352804, 4094571909, 275423344, 430227734, 506948616,
   659060556, 883997877, 958139571, 1322822218, 1537002063,
   1747873779, 1955562222, 2024104815, 2227730452, 2361852424,
   2428436474, 2756734187, 3204031479, 3329325298]

/-- The initial SHA-256 hash state. -/
def sha256InitH : List Nat :=
  [1779033703, 3144134277, 1013904242, 2773480762,
   1359893119, 2600822924, 528734635, 1541459225]

/-- Big-endian 8-byte encoding of `n`. -/
def be64 (n : Nat) : List Nat :=
  (List.range 8).map fun i => n >>> (56 - 8 * i) % 256

/-- SHA-256 message padding: `0x80`, zeros to 56 mod 64, 8-byte bit length. -/
def sha256Pad (msg : List Nat) : List Nat :=
  let L := msg.length
  msg ++ 0x80 :: List.replicate ((119 - L % 64) % 64) 0 ++ be64 (8 * L)

/-- Split a padded message into 64-byte blocks. -/
def sha256Blocks (bytes : List Nat) : List (List Nat) :=
  (List.range (bytes.length / 64)).map fun i => ((bytes.drop (64 * i)).take 64)

/-- Big-endian 32-bit words of one 64-byte block. -/
def blockWords (block : List Nat) : List Nat :=
  (List.range 16).map fun i =>
    block.getD (4 * i) 0 <<< 24 + block.getD (4 * i + 1) 0 <<< 16 +
      block.getD (4 * i + 2) 0 <<< 8 + block.getD (4 * i + 3) 0

/-- Extend 16 schedule words to 64. -/
def msgSchedule (w16 : List Nat) : List Nat :=
  (List.range 48).foldl (fun w _ =>
    let n := w.length
    let w15 := w.getD (n - 15) 0
    let w2 := w.getD (n - 2) 0
    let s0 := rotr32 7 w15 ^^^ rotr32 18 w15 ^^^ (w15 >>> 3)
    let s1 := rotr32 17 w2 ^^^ rotr32 19 w2 ^^^ (w2 >>> 10)
    w ++ [mod32 (w.getD (n - 16) 0 + s0 + w.getD (n - 7) 0 + s1)]) w16

/-- One round of the SHA-256 compression function. -/
def sha256Round (st : List Nat) (kw : Nat × Nat) : List Nat :=
  let a := st.getD 0 0
  let b := st.getD 1 0
  let c := st.getD 2 0
  let d := st.getD 3 0
  let e := st.getD 4 0
  let f := st.getD 5 0
  let g := st.getD 6 0
  let h := st.getD 7 0
  let S1 := rotr32 6 e ^^^ rotr32 11 e ^^^ rotr32 25 e
  let ch := (e &&& f) ^^^ ((4294967295 ^^^ e) &&& g)
  let t1 := mod32 (h + S1 + ch + kw.1 + kw.2)
  let S0 := rotr32 2 a ^^^ rotr32 13 a ^^^ rotr32 22 a
  let maj := (a &&& b) ^^^ (a &&& c) ^^^ (b &&& c)
  let t2 := mod32 (S0 + maj)
  [mod32 (t1 + t2), a, b, c, mod32 (d + t1), e, f, g]

/-- Process one block: compress and add into the hash state. -/
def sha256Block (hs : List Nat) (block : List Nat) : List Nat :=
  let w := msgSchedule (blockWords block)
  let st := (sha256K.zip w).foldl sha256Round hs
  List.zipWith (fun x y => mod32 (x + y)) hs st

/-- Eight lowercase hex digits of a 32-bit word. -/
def word32HexLower (n : Nat) : List Char :=
  (List.range 8).map fun i => hexLower (n >>> (28 - 4 * i) % 16)

/-- `hashlib.sha256(bytes).hexdigest()`. -/
def sha256Hex (msg : List Nat) : String :=
  ⟨((sha256Blocks (sha256Pad msg)).foldl sha256Block sha256InitH).flatMap word32HexLower⟩

/-! ## Results, records, exceptions, filesystem environment -/

/-- A value returned by a wrapped function: one of the two supported polars
shapes (with an opaque content identifier standing for the tabular data) or an
arbitrary unsupported value. -/
inductive PolarsResult where
  | dataFrame (content : Nat)
  | lazyFrame (content : Nat)
  | other (value : Nat)
  deriving DecidableEq, Repr

/-- `isinstance(result, (pl.DataFrame, pl.LazyFrame))`. -/
def isTabular : PolarsResult → Bool
  | .other _ => false
  | _ => true

/-- `isinstance(result, pl.LazyFrame)`. -/
def isLazyResult : PolarsResult → Bool
  | .lazyFrame _ => true
  | _ => false

/-- The metadata record `{"path": ..., "is_lazy": ...}` stored per cache key. -/
structure BlobRecord where
  path : String
  is_lazy : Bool
  deriving DecidableEq, Repr

/-- The Python exceptions the embedding distinguishes. -/
inductive PyErr where
  | osError
  | typeError
  | valueError
  deriving DecidableEq, Repr

/-- Mutable cache state: metadata index, blob files on disk (path to content),
and symlinks (path to target). -/
structure CacheState where
  index : List (String × BlobRecord)
  disk : List (String × Nat)
  links : List (String × String)
  deriving DecidableEq, Repr

/-- Oracles describing which filesystem operations fail in the environment
(permission errors, filesystems without symlink support, pre-existing files). -/
structure FsEnv where
  mkdirFails : String → Bool
  symlinkFails : String → Bool
  fileAt : String → Bool

/-! ## Fingerprint engine (`PolarsCache._get_cache_key`) -/

/-- The canonical string `f"{func.__module__}.{func.__qualname__}({args}, {kwargs})"`. -/
def identString (module qualname : String) (args : List PyVal)
    (kwargs : List (String × PyVal)) : String :=
  module ++ "." ++ qualname ++ "(" ++ tupleRepr args ++ ", " ++ dictRepr kwargs ++ ")"

/-- `PolarsCache._get_cache_key`: SHA-256 hex digest of the canonical string. -/
def getCacheKey (module qualname : String) (args : List PyVal)
    (kwargs : List (String × PyVal)) : String :=
  sha256Hex (strUtf8 (identString module qualname args kwargs))

/-! ## Path helpers -/

/-- `"…".split("/")` over the character list (same result as Python's
`str.split` with an explicit separator). -/
def splitSlashChars (l : List Char) : List String :=
  (l.foldr (fun c (acc : List (List Char)) =>
    if c = '/' then [] :: acc
    else match acc with
      | h :: t => (c :: h) :: t
      | [] => [[c]]) [[]]).map (fun cs => ⟨cs⟩)

/-- Path split into nonempty segments. -/
def pathSegs (s : String) : List String :=
  (splitSlashChars s.data).filter (fun t => t ≠ "")

/-- Length of the common segment run shared by two paths. -/
def commonSegs : List String → List String → Nat
  | a :: as, b :: bs => if a = b then 1 + commonSegs as bs else 0
  | _, _ => 0

/-- `os.path.relpath(target, base)`: climb out of `base`, then descend into
`target`. -/
def relPath (target base : String) : String :=
  let t := pathSegs target
  let b := pathSegs base
  let n := commonSegs t b
  let parts := List.replicate (b.length - n) ".." ++ t.drop n
  if parts.isEmpty then "." else joinSep "/" parts

/-- Normalization `pathlib.Path` applies before comparing paths: empty and
`.` segments are dropped, a leading slash is preserved. -/
def pyPathNorm (s : String) : String :=
  let segs := (splitSlashChars s.data).filter (fun t => t ≠ "" && t ≠ ".")
  (if s.data.head? = some '/' then "/" else "") ++ joinSep "/" segs

/-! ## Readable path builders

Two implementations exist in the repository: the one inlined in
`PolarsCache._create_readable_symlink` (decorator.py, the one the facade
actually runs) and the standalone `CachePathManager` (path_manager.py). -/

/-- Configuration fields of a `PolarsCache` instance that the decorator
temporarily overrides around symlink creation. -/
structure InstanceConfig where
  readable_dir_name : String
  split_module_path : Bool
  max_arg_length : Nat
  symlink_name : Option String
  deriving DecidableEq, Repr

/-- decorator.py lines 243-251: the readable base path segments under the
cache root.  In split mode the module segment is percent-encoded but the
qualname segment is used raw. -/
def readableBaseSegs (readable_dir_name : String) (split_module_path : Bool)
    (module_name func_qualname : String) : List String :=
  if split_module_path then
    [readable_dir_name, pyQuote module_name, func_qualname]
  else
    [readable_dir_name, pyQuote (module_name ++ "." ++ func_qualname)]

/-- path_manager.py `CachePathManager.get_readable_path` base segments: both
the module and the qualname segments are percent-encoded in nested mode. -/
def pmReadableBaseSegs (symlinks_dir_name : String) (nested : Bool)
    (module_name func_qualname : String) : List String :=
  if nested then
    [symlinks_dir_name, pyQuote module_name, pyQuote func_qualname]
  else
    [symlinks_dir_name, pyQuote (module_name ++ "." ++ func_qualname)]

/-- Modelled from the spec (section 4.4): "if true, nest as
root/namespace/qualified_name/, else collapse to
root/\"namespace.qualified_name\"/, with both namespace and qualified-name
segments percent-encoded for filesystem safety". -/
def specReadableBaseSegs (root_label : String) (split : Bool)
    (ns qualified_name : String) : List String :=
  if split then
    [root_label, pyQuote ns, pyQuote qualified_name]
  else
    [root_label, pyQuote (ns ++ "." ++ qualified_name)]

/-- decorator.py lines 254-265: the terminal args directory name, built from
positional (`arg{i}=`) and keyword (`{key}=`) parts, each value truncated to
`max_arg_length` characters before percent-encoding. -/
def argsDirName (max_arg_length : Nat) (args : List PyVal)
    (kwargs : List (String × PyVal)) : String :=
  let argParts := args.enum.map fun p =>
    "arg" ++ toString p.1 ++ "=" ++ pyQuote (pySlice (pyStr p.2) max_arg_length)
  let kwParts := kwargs.map fun p =>
    p.1 ++ "=" ++ pyQuote (pySlice (pyStr p.2) max_arg_length)
  let parts := argParts ++ kwParts
  if parts.isEmpty then "no_args" else joinSep "_" parts

/-- path_manager.py `CachePathManager._default_entry_dir_name`: `key=value`
parts from the bound arguments, values truncated to `trim_arg` characters
before percent-encoding; `"no_args"` when empty. -/
def defaultEntryDirName (trim_arg : Nat) (bound_args : List (String × PyVal)) : String :=
  let parts := bound_args.map fun p =>
    p.1 ++ "=" ++ pyQuote (pySlice (pyStr p.2) trim_arg)
  if parts.isEmpty then "no_args" else joinSep "_" parts

/-! ## Blob store (`_save_polars_result` / `_load_polars_result`) -/

/-- `PolarsCache._save_polars_result`: write the parquet blob for the key and
return its path; raises `TypeError` on an unsupported result. -/
def savePolarsResult (cache_dir : String) (result : PolarsResult)
    (cache_key : String) (disk : List (String × Nat)) :
    Except PyErr (String × List (String × Nat)) :=
  let parquet_path := cache_dir ++ "/blobs/" ++ cache_key ++ ".parquet"
  match result with
  | .dataFrame c => .ok (parquet_path, setKey parquet_path c disk)
  | .lazyFrame c => .ok (parquet_path, setKey parquet_path c disk)
  | .other _ => .error .typeError

/-- `PolarsCache._load_polars_result`: reconstruct the stored shape from the
blob at `parquet_path`. -/
def loadPolarsResult (parquet_path : String) (is_lazy : Bool)
    (disk : List (String × Nat)) : PolarsResult :=
  let c := (lookupKey parquet_path disk).getD 0
  if is_lazy then .lazyFrame c else .dataFrame c

/-! ## Symlink creation inlined in decorator.py
(`PolarsCache._create_readable_symlink`) -/

/-- decorator.py lines 229-283.  Builds the readable directory, then creates
the symlink inside a `try` that swallows `OSError`/`FileExistsError`.  The
`mkdir` call happens before the `try`, so its failures propagate.  A path at
which any entry already exists is left untouched (`Path.exists` follows
symlinks; a broken existing link instead raises `FileExistsError` inside the
`try`, which is swallowed — either way the existing entry is unchanged, which
is how the model renders it). -/
def createReadableSymlinkD (cache_dir : String) (cfg : InstanceConfig)
    (module qualname : String) (args : List PyVal) (kwargs : List (String × PyVal))
    (cache_key : String) (env : FsEnv) (st : CacheState) : Except PyErr CacheState :=
  let finalDir := joinSep "/"
    (cache_dir :: readableBaseSegs cfg.readable_dir_name cfg.split_module_path module qualname
      ++ [argsDirName cfg.max_arg_length args kwargs])
  if env.mkdirFails finalDir then .error .osError
  else
    let symlink_name := cfg.symlink_name.getD "output.parquet"
    let symlink_path := finalDir ++ "/" ++ symlink_name
    let blob_path := cache_dir ++ "/blobs/" ++ cache_key ++ ".parquet"
    let relative_blob := relPath blob_path finalDir
    if (lookupKey symlink_path st.links).isSome || env.fileAt symlink_path then .ok st
    else if env.symlinkFails symlink_path then .ok st
    else .ok { st with links := setKey symlink_path relative_blob st.links }

/-! ## The cache facade (`PolarsCache.cache_polars` wrapper) -/

/-- Outcome of one call through the decorated wrapper: the returned value or
propagated exception, the instance configuration after the call, the final
cache state, and whether the wrapped function was invoked. -/
structure WrapperOut where
  ret : Except PyErr PolarsResult
  cfg : InstanceConfig
  state : CacheState
  computed : Bool

/-- The miss branch of the wrapper (decorator.py lines 185-223): invoke the
function; cache tabular results (save blob, set index, create readable
symlink under the decoration-time `use` overrides, restoring the instance
configuration in a `finally`); pass anything else through uncached. -/
def wrapperMiss (cache_dir : String) (inst use : InstanceConfig)
    (module qualname : String) (args : List PyVal) (kwargs : List (String × PyVal))
    (cache_key : String) (compute : PolarsResult) (env : FsEnv)
    (st : CacheState) : WrapperOut :=
  if isTabular compute then
    match savePolarsResult cache_dir compute cache_key st.disk with
    | .error e => { ret := .error e, cfg := inst, state := st, computed := true }
    | .ok (parquet_path, disk') =>
      let st₂ : CacheState :=
        { st with disk := disk',
                  index := setKey cache_key ⟨parquet_path, isLazyResult compute⟩ st.index }
      match createReadableSymlinkD cache_dir use module qualname args kwargs cache_key env st₂ with
      | .ok st₃ => { ret := .ok compute, cfg := inst, state := st₃, computed := true }
      | .error e => { ret := .error e, cfg := inst, state := st₂, computed := true }
  else { ret := .ok compute, cfg := inst, state := st, computed := true }

/-- decorator.py lines 168-223: the wrapper around a decorated function.
`compute` is the value the wrapped function returns when invoked. -/
def wrapper (cache_dir : String) (inst use : InstanceConfig)
    (module qualname : String) (args : List PyVal) (kwargs : List (String × PyVal))
    (compute : PolarsResult) (env : FsEnv) (st : CacheState) : WrapperOut :=
  let cache_key := getCacheKey module qualname args kwargs
  match lookupKey cache_key st.index with
  | some rec =>
    if (lookupKey rec.path st.disk).isSome then
      { ret := .ok (loadPolarsResult rec.path rec.is_lazy st.disk),
        cfg := inst, state := st, computed := false }
    else
      wrapperMiss cache_dir inst use module qualname args kwargs cache_key compute env
        { st with index := eraseKey cache_key st.index }
  | none =>
    wrapperMiss cache_dir inst use module qualname args kwargs cache_key compute env st

/-! ## The standalone symlink manager (symlink_manager.py) -/

/-- The `symlink_name` configuration of a `SymlinkManager`: absent, a string,
or a callback from `(func, bound_args, result, cache_key)` to a value (the
callable identity is rendered as its module and qualname). -/
inductive SymlinkNameCfg where
  | noneCfg
  | strCfg (s : String)
  | callbackCfg (f : String → String → List (String × PyVal) → PolarsResult → String → PyVal)

/-- `SymlinkManager._get_symlink_name`: a callable configuration is invoked
and its result validated (`TypeError` on a non-string, `ValueError` on an
empty/whitespace-only string); a string configuration is validated the same
way; otherwise the hardcoded `"output.parquet"` fallback is used. -/
def getSymlinkName (cfg : SymlinkNameCfg) (module qualname : String)
    (bound_args : List (String × PyVal)) (result : PolarsResult)
    (cache_key : String) : Except PyErr String :=
  match cfg with
  | .callbackCfg f =>
    match f module qualname bound_args result cache_key with
    | .str s =>
      if pyStripEmpty s then .error .valueError else .ok s
    | _ => .error .typeError
  | .strCfg s =>
    if pyStripEmpty s then .error .valueError else .ok s
  | .noneCfg => .ok "output.parquet"

/-- `SymlinkManager.create_symlink`: ensure the readable directory exists
(outside the `try` — failures propagate), resolve the link name (validation
failures propagate), then create the link inside a `try` swallowing
`OSError`/`FileExistsError`; an existing entry at the link path is left
untouched. -/
def createSymlinkM (cfg : SymlinkNameCfg) (module qualname : String)
    (bound_args : List (String × PyVal)) (result : PolarsResult)
    (cache_key : String) (readable_dir blob_path : String) (env : FsEnv)
    (links : List (String × String)) : Except PyErr (List (String × String)) :=
  if env.mkdirFails readable_dir then .error .osError
  else
    match getSymlinkName cfg module qualname bound_args result cache_key with
    | .error e => .error e
    | .ok symlink_name =>
      let symlink_path := readable_dir ++ "/" ++ symlink_name
      let relative_blob := relPath blob_path readable_dir
      if (lookupKey symlink_path links).isSome || env.fileAt symlink_path then .ok links
      else if env.symlinkFails symlink_path then .ok links
      else .ok (setKey symlink_path relative_blob links)

/-! ## The global convenience entry point (`cache`, decorator.py lines 311-358) -/

/-- The fields of a constructed `PolarsCache` instance tracked by the model. -/
structure PCacheInst where
  cache_dir : String
  size_limit : Nat
  readable_dir_name : String
  split_module_path : Bool
  max_arg_length : Nat
  symlink_name : Option String
  deriving DecidableEq, Repr

/-- `PolarsCache.__init__` cache-directory resolution: an explicit directory
is used as given; otherwise a (possibly dotted) default under the working or
temp directory. -/
def resolveCacheDir (cwd tmpdir : String) (cache_dir : Option String)
    (use_tmp hidden : Bool) : String :=
  match cache_dir with
  | some d => d
  | none =>
    let dir_name := if hidden then ".polars_cache" else "polars_cache"
    (if use_tmp then tmpdir else cwd) ++ "/" ++ dir_name

/-- Construct a `PolarsCache` with the arguments `cache()` forwards.
(`cache()` does not forward `use_tmp`/`hidden`, so the constructor defaults
`use_tmp=False`, `hidden=True` apply.) -/
def mkPolarsCache (cwd tmpdir : String) (cache_dir : Option String)
    (size_limit : Nat) (readable_dir_name : String) (split_module_path : Bool)
    (max_arg_length : Nat) (symlink_name : Option String) : PCacheInst :=
  { cache_dir := resolveCacheDir cwd tmpdir cache_dir false true,
    size_limit := size_limit,
    readable_dir_name := readable_dir_name,
    split_module_path := split_module_path,
    max_arg_length := max_arg_length,
    symlink_name := symlink_name }

/-- The module-level `_global_cache`: the initial `_DummyCache` or a real
`PolarsCache` instance. -/
inductive GlobalCacheState where
  | dummy
  | real (c : PCacheInst)
  deriving DecidableEq, Repr

/-- The `cache(...)` convenience function's effect on `_global_cache`: build a
fresh instance on first use, or when an explicit `cache_dir` differs (as a
`Path`) from the current instance's directory; otherwise reuse the instance. -/
def cacheFn (st : GlobalCacheState) (cwd tmpdir : String)
    (cache_dir : Option String) (size_limit : Nat) (readable_dir_name : String)
    (split_module_path : Bool) (max_arg_length : Nat)
    (symlink_name : Option String) : GlobalCacheState :=
  let replace : Bool :=
    match st with
    | .dummy => true
    | .real c =>
      match cache_dir with
      | some d => pyPathNorm c.cache_dir != pyPathNorm d
      | none => false
  if replace then
    .real (mkPolarsCache cwd tmpdir cache_dir size_limit readable_dir_name
      split_module_path max_arg_length symlink_name)
  else st

/-! ## Association-list lemmas -/

theorem eraseKey_cons {β : Type} (k : String) (p : String × β) (l : List (String × β)) :
    eraseKey k (p :: l) = if p.1 = k then eraseKey k l else p :: eraseKey k l := by
  by_cases hp : p.1 = k <;> simp [eraseKey, List.filter_cons, hp]

theorem lookupKey_cons {β : Type} (k : String) (p : String × β) (l : List (String × β)) :
    lookupKey k (p :: l) = if p.1 = k then some p.2 else lookupKey k l := rfl

theorem lookupKey_setKey_self {β : Type} (k : String) (v : β) (l : List (String × β)) :
    lookupKey k (setKey k v l) = some v := by
  simp [setKey, lookupKey]

theorem lookupKey_eraseKey_self {β : Type} (k : String) (l : List (String × β)) :
    lookupKey k (eraseKey k l) = none := by
  induction l with
  | nil => rfl
  | cons p rest ih =>
    rw [eraseKey_cons]
    by_cases hp : p.1 = k
    · simpa [hp] using ih
    · simpa [hp, lookupKey_cons] using ih

theorem lookupKey_of_eraseKey {β : Type} {k k' : String} {l : List (String × β)} {v : β}
    (h : lookupKey k (eraseKey k' l) = some v) : lookupKey k l = some v := by
  induction l with
  | nil => simpa [eraseKey] using h
  | cons p rest ih =>
    rw [eraseKey_cons] at h
    by_cases hp : p.1 = k'
    · rw [if_pos hp] at h
      by_cases hk : p.1 = k
      · rw [hp] at hk
        subst hk
        rw [lookupKey_eraseKey_self] at h
        exact absurd h (by simp)
      · simpa [lookupKey_cons, hk] using ih h
    · rw [if_neg hp, lookupKey_cons] at h
      rw [lookupKey_cons]
      by_cases hk : p.1 = k
      · simpa [hk] using by simpa [hk] using h
      · simp only [if_neg hk] at h ⊢
        exact ih h

theorem lookupKey_cons_self {β : Type} (k : String) (v : β) (l : List (String × β)) :
    lookupKey k ((k, v) :: l) = some v := by
  simp [lookupKey_cons]

/-! ## Frame and characterization lemmas for the facade -/

theorem createReadableSymlinkD_ok_frame {cache_dir : String} {cfg : InstanceConfig}
    {module qualname : String} {args : List PyVal} {kwargs : List (String × PyVal)}
    {cache_key : String} {env : FsEnv} {st st' : CacheState}
    (h : createReadableSymlinkD cache_dir cfg module qualname args kwargs cache_key env st = .ok st') :
    st'.index = st.index ∧ st'.disk = st.disk := by
  unfold createReadableSymlinkD at h
  dsimp only at h
  split at h
  · simp at h
  · split at h
    · simp at h
      subst h
      exact ⟨rfl, rfl⟩
    · split at h
      · simp at h
        subst h
        exact ⟨rfl, rfl⟩
      · simp at h
        subst h
        exact ⟨rfl, rfl⟩

theorem wrapperMiss_cfg (cache_dir : String) (inst use : InstanceConfig)
    (module qualname : String) (args : List PyVal) (kwargs : List (String × PyVal))
    (cache_key : String) (compute : PolarsResult) (env : FsEnv) (st : CacheState) :
    (wrapperMiss cache_dir inst use module qualname args kwargs cache_key compute env st).cfg = inst := by
  unfold wrapperMiss
  dsimp only
  split
  · split
    · rfl
    · split <;> rfl
  · rfl

theorem wrapperMiss_other_eq (cache_dir : String) (inst use : InstanceConfig)
    (module qualname : String) (args : List PyVal) (kwargs : List (String × PyVal))
    (key : String) (w : Nat) (env : FsEnv) (st : CacheState) :
    wrapperMiss cache_dir inst use module qualname args kwargs key (.other w) env st =
      ⟨.ok (.other w), inst, st, true⟩ := rfl

theorem wrapperMiss_dataFrame_eq (cache_dir : String) (inst use : InstanceConfig)
    (module qualname : String) (args : List PyVal) (kwargs : List (String × PyVal))
    (key : String) (c : Nat) (env : FsEnv) (st : CacheState) :
    wrapperMiss cache_dir inst use module qualname args kwargs key (.dataFrame c) env st =
      match createReadableSymlinkD cache_dir use module qualname args kwargs key env
          ⟨setKey key ⟨cache_dir ++ "/blobs/" ++ key ++ ".parquet", false⟩ st.index,
           setKey (cache_dir ++ "/blobs/" ++ key ++ ".parquet") c st.disk, st.links⟩ with
      | .ok st₃ => ⟨.ok (.dataFrame c), inst, st₃, true⟩
      | .error e => ⟨.error e, inst,
          ⟨setKey key ⟨cache_dir ++ "/blobs/" ++ key ++ ".parquet", false⟩ st.index,
           setKey (cache_dir ++ "/blobs/" ++ key ++ ".parquet") c st.disk, st.links⟩, true⟩ := rfl

theorem wrapperMiss_lazyFrame_eq (cache_dir : String) (inst use : InstanceConfig)
    (module qualname : String) (args : List PyVal) (kwargs : List (String × PyVal))
    (key : String) (c : Nat) (env : FsEnv) (st : CacheState) :
    wrapperMiss cache_dir inst use module qualname args kwargs key (.lazyFrame c) env st =
      match createReadableSymlinkD cache_dir use module qualname args kwargs key env
          ⟨setKey key ⟨cache_dir ++ "/blobs/" ++ key ++ ".parquet", true⟩ st.index,
           setKey (cache_dir ++ "/blobs/" ++ key ++ ".parquet") c st.disk, st.links⟩ with
      | .ok st₃ => ⟨.ok (.lazyFrame c), inst, st₃, true⟩
      | .error e => ⟨.error e, inst,
          ⟨setKey key ⟨cache_dir ++ "/blobs/" ++ key ++ ".parquet", true⟩ st.index,
           setKey (cache_dir ++ "/blobs/" ++ key ++ ".parquet") c st.disk, st.links⟩, true⟩ := rfl

/-! ## Claim theorems -/

/-- C10: for every call to a decorated function, the cache instance's
configuration fields (readable directory name, module-path split flag, max
argument length, symlink name) hold the same values after the call as before
it, for every environment — including ones where symlink creation raises —
and under arbitrary per-decorator overrides `use`: the temporary overrides
are always restored. -/
theorem wrapper_preserves_config (cache_dir : String) (inst use : InstanceConfig)
    (module qualname : String) (args : List PyVal) (kwargs : List (String × PyVal))
    (compute : PolarsResult) (env : FsEnv) (st : CacheState) :
    (wrapper cache_dir inst use module qualname args kwargs compute env st).cfg = inst := by
  unfold wrapper
  dsimp only
  split
  · split
    · rfl
    · exact wrapperMiss_cfg ..
  · exact wrapperMiss_cfg ..

/-- C3: when the wrapped computation produces a result that is neither a
DataFrame nor a LazyFrame, the wrapper returns it unmodified, writes nothing
to the blob store, creates no symlink, and adds no entry to the metadata
index (entries can only disappear, via the self-healing deletion). -/
theorem nontabular_result_passthrough (cache_dir : String) (inst use : InstanceConfig)
    (module qualname : String) (args : List PyVal) (kwargs : List (String × PyVal))
    (v : Nat) (env : FsEnv) (st : CacheState) :
    ((wrapper cache_dir inst use module qualname args kwargs (.other v) env st).computed = true →
      (wrapper cache_dir inst use module qualname args kwargs (.other v) env st).ret = .ok (.other v))
    ∧ (wrapper cache_dir inst use module qualname args kwargs (.other v) env st).state.disk = st.disk
    ∧ (wrapper cache_dir inst use module qualname args kwargs (.other v) env st).state.links = st.links
    ∧ ∀ k r, lookupKey k (wrapper cache_dir inst use module qualname args kwargs (.other v) env st).state.index = some r →
        lookupKey k st.index = some r := by
  unfold wrapper wrapperMiss
  dsimp only
  split
  · split
    · exact ⟨fun h => by simp at h, rfl, rfl, fun k r h => h⟩
    · exact ⟨fun _ => rfl, rfl, rfl, fun k r h => lookupKey_of_eraseKey h⟩
  · exact ⟨fun _ => rfl, rfl, rfl, fun k r h => h⟩

/-- C3 witness: a concrete non-tabular result is passed through unchanged. -/
theorem nontabular_result_passthrough_witness :
    (wrapper "c" ⟨"functions", true, 50, none⟩ ⟨"functions", true, 50, none⟩ "m" "f" [] []
      (.other 7) ⟨fun _ => false, fun _ => false, fun _ => false⟩ ⟨[], [], []⟩).ret = .ok (.other 7) :=
  (nontabular_result_passthrough "c" ⟨"functions", true, 50, none⟩ ⟨"functions", true, 50, none⟩
    "m" "f" [] [] 7 ⟨fun _ => false, fun _ => false, fun _ => false⟩ ⟨[], [], []⟩).1 rfl

/-- C2: when the metadata index holds a record for the call's key but the
artifact at the record's path is gone from disk, the wrapper treats the call
as a miss: the wrapped computation is invoked, and afterwards the index holds
no stale record under that key — every record still indexed under the key
points at an artifact that exists on disk (and if the recomputed result was
not cacheable, the key is gone from the index entirely). -/
theorem get_or_compute_self_healing (cache_dir : String) (inst use : InstanceConfig)
    (module qualname : String) (args : List PyVal) (kwargs : List (String × PyVal))
    (compute : PolarsResult) (env : FsEnv) (st : CacheState) (key : String) (rec : BlobRecord)
    (hkey : key = getCacheKey module qualname args kwargs)
    (hrec : lookupKey key st.index = some rec)
    (hgone : lookupKey rec.path st.disk = none) :
    (wrapper cache_dir inst use module qualname args kwargs compute env st).computed = true
    ∧ (∀ r', lookupKey key (wrapper cache_dir inst use module qualname args kwargs compute env st).state.index = some r' →
        (lookupKey r'.path (wrapper cache_dir inst use module qualname args kwargs compute env st).state.disk).isSome = true)
    ∧ (isTabular compute = false →
        lookupKey key (wrapper cache_dir inst use module qualname args kwargs compute env st).state.index = none) := by
  subst hkey
  unfold wrapper
  dsimp only
  rw [hrec]
  dsimp only
  rw [hgone]
  simp only [Option.isSome_none, Bool.false_eq_true, if_false]
  cases compute with
  | other w =>
    rw [wrapperMiss_other_eq]
    refine ⟨rfl, ?_, fun _ => lookupKey_eraseKey_self _ _⟩
    intro r' h
    rw [lookupKey_eraseKey_self] at h
    exact absurd h (by simp)
  | dataFrame c =>
    rw [wrapperMiss_dataFrame_eq]
    split
    · rename_i st₃ hok
      obtain ⟨hidx, hdisk⟩ := createReadableSymlinkD_ok_frame hok
      refine ⟨rfl, ?_, fun h => by simp [isTabular] at h⟩
      intro r' h
      rw [hidx] at h
      rw [lookupKey_setKey_self] at h
      injection h with h
      subst h
      rw [hdisk]
      rw [lookupKey_setKey_self]
      rfl
    · refine ⟨rfl, ?_, fun h => by simp [isTabular] at h⟩
      intro r' h
      rw [lookupKey_setKey_self] at h
      injection h with h
      subst h
      rw [lookupKey_setKey_self]
      rfl
  | lazyFrame c =>
    rw [wrapperMiss_lazyFrame_eq]
    split
    · rename_i st₃ hok
      obtain ⟨hidx, hdisk⟩ := createReadableSymlinkD_ok_frame hok
      refine ⟨rfl, ?_, fun h => by simp [isTabular] at h⟩
      intro r' h
      rw [hidx] at h
      rw [lookupKey_setKey_self] at h
      injection h with h
      subst h
      rw [hdisk]
      rw [lookupKey_setKey_self]
      rfl
    · refine ⟨rfl, ?_, fun h => by simp [isTabular] at h⟩
      intro r' h
      rw [lookupKey_setKey_self] at h
      injection h with h
      subst h
      rw [lookupKey_setKey_self]
      rfl

/-- C2 witness: with a concrete stale index entry, the wrapped computation
runs again. -/
theorem get_or_compute_self_healing_witness :
    (wrapper "c" ⟨"functions", true, 50, none⟩ ⟨"functions", true, 50, none⟩ "m" "f" [] []
      (.dataFrame 7) ⟨fun _ => false, fun _ => false, fun _ => false⟩
      ⟨[(getCacheKey "m" "f" [] [], ⟨"gone.parquet", false⟩)], [], []⟩).computed = true :=
  (get_or_compute_self_healing "c" ⟨"functions", true, 50, none⟩ ⟨"functions", true, 50, none⟩
    "m" "f" [] [] (.dataFrame 7) ⟨fun _ => false, fun _ => false, fun _ => false⟩
    ⟨[(getCacheKey "m" "f" [] [], ⟨"gone.parquet", false⟩)], [], []⟩
    (getCacheKey "m" "f" [] []) ⟨"gone.parquet", false⟩ rfl
    (lookupKey_cons_self _ _ _) rfl).1

/-- C4: when an entry already exists at the exact link path, invoking the
symlink projection a second time — with any (in particular a different)
artifact target — leaves the link map unchanged, so the first-created link
and its target persist (first writer wins; nothing is replaced or
re-pointed). -/
theorem symlink_non_clobber (cfg : SymlinkNameCfg) (module qualname : String)
    (bound_args : List (String × PyVal)) (result : PolarsResult) (cache_key : String)
    (readable_dir blob_path : String) (env : FsEnv) (links : List (String × String))
    (name t : String)
    (hmkdir : env.mkdirFails readable_dir = false)
    (hname : getSymlinkName cfg module qualname bound_args result cache_key = .ok name)
    (hexisting : lookupKey (readable_dir ++ "/" ++ name) links = some t) :
    createSymlinkM cfg module qualname bound_args result cache_key readable_dir blob_path env links = .ok links
    ∧ lookupKey (readable_dir ++ "/" ++ name) links = some t := by
  unfold createSymlinkM
  rw [hmkdir, hname]
  simp only [Bool.false_eq_true, if_false]
  rw [hexisting]
  exact ⟨rfl, rfl⟩

/-- C4 witness: a concrete second projection against an existing link keeps
the old target. -/
theorem symlink_non_clobber_witness :
    createSymlinkM .noneCfg "m" "f" [] (.dataFrame 0) "k" "d" "newblob"
      ⟨fun _ => false, fun _ => false, fun _ => false⟩ [("d/output.parquet", "oldtarget")] =
      .ok [("d/output.parquet", "oldtarget")] :=
  (symlink_non_clobber .noneCfg "m" "f" [] (.dataFrame 0) "k" "d" "newblob"
    ⟨fun _ => false, fun _ => false, fun _ => false⟩ [("d/output.parquet", "oldtarget")]
    "output.parquet" "oldtarget" rfl rfl (by decide)).1


theorem createReadableSymlinkD_ok_of_benign (cache_dir : String) (cfg : InstanceConfig)
    (module qualname : String) (args : List PyVal) (kwargs : List (String × PyVal))
    (cache_key : String) (env : FsEnv) (st : CacheState)
    (hall : ∀ p, env.mkdirFails p = false) :
    ∃ st', createReadableSymlinkD cache_dir cfg module qualname args kwargs cache_key env st = .ok st' := by
  unfold createReadableSymlinkD
  dsimp only
  rw [hall]
  simp only [Bool.false_eq_true, if_false]
  split
  · exact ⟨_, rfl⟩
  · split
    · exact ⟨_, rfl⟩
    · exact ⟨_, rfl⟩

/-- C5 counterexample: a failure while creating the readable directory
(`mkdir` runs before the `try` block) propagates out of `create_symlink` as
an `OSError` instead of being swallowed, refuting the claim that any failure
arising while creating the readable directory or the symbolic link is
swallowed. -/
theorem symlink_mkdir_failure_propagates :
    createSymlinkM .noneCfg "m" "f" [] (.dataFrame 0) "k" "d" "b"
      ⟨fun _ => true, fun _ => false, fun _ => false⟩ [] = .error .osError := rfl

/-- C5 amended: failures raised at the guarded link-creation step itself
(existence check, relative-path computation, symlink syscall — including
pre-existing files and filesystems without symlink support) are swallowed:
with the directory creation succeeding and a valid link name, the projection
returns normally for every environment, and at the facade a miss still
returns the computed result; but a directory-creation failure propagates
(see the counterexample). -/
theorem symlink_link_step_failures_swallowed (cfg : SymlinkNameCfg)
    (module qualname : String) (bound_args : List (String × PyVal)) (result : PolarsResult)
    (cache_key : String) (readable_dir blob_path : String) (env : FsEnv)
    (links : List (String × String)) (name : String)
    (hmkdir : env.mkdirFails readable_dir = false)
    (hname : getSymlinkName cfg module qualname bound_args result cache_key = .ok name) :
    (∃ links', createSymlinkM cfg module qualname bound_args result cache_key
        readable_dir blob_path env links = .ok links')
    ∧ ∀ (cache_dir : String) (inst use : InstanceConfig) (args : List PyVal)
        (kwargs : List (String × PyVal)) (c : Nat) (env₂ : FsEnv) (st : CacheState),
        (∀ p, env₂.mkdirFails p = false) →
        lookupKey (getCacheKey module qualname args kwargs) st.index = none →
        (wrapper cache_dir inst use module qualname args kwargs (.dataFrame c) env₂ st).ret =
          .ok (.dataFrame c) := by
  constructor
  · unfold createSymlinkM
    rw [hmkdir, hname]
    simp only [Bool.false_eq_true, if_false]
    split
    · exact ⟨_, rfl⟩
    · split
      · exact ⟨_, rfl⟩
      · exact ⟨_, rfl⟩
  · intro cache_dir inst use args kwargs c env₂ st hall hmiss
    unfold wrapper
    dsimp only
    rw [hmiss]
    dsimp only
    rw [wrapperMiss_dataFrame_eq]
    obtain ⟨st', hok⟩ := createReadableSymlinkD_ok_of_benign cache_dir use module qualname
      args kwargs (getCacheKey module qualname args kwargs) env₂
      ⟨setKey (getCacheKey module qualname args kwargs)
        ⟨cache_dir ++ "/blobs/" ++ getCacheKey module qualname args kwargs ++ ".parquet", false⟩ st.index,
       setKey (cache_dir ++ "/blobs/" ++ getCacheKey module qualname args kwargs ++ ".parquet") c st.disk,
       st.links⟩ hall
    rw [hok]

/-- C5 witness: with a failing symlink syscall the projection still returns
normally. -/
theorem symlink_link_step_failures_swallowed_witness :
    (∃ links', createSymlinkM .noneCfg "m" "f" [] (.dataFrame 0) "k" "d" "b"
      ⟨fun _ => false, fun _ => true, fun _ => false⟩ [] = .ok links') :=
  (symlink_link_step_failures_swallowed .noneCfg "m" "f" [] (.dataFrame 0) "k" "d" "b"
    ⟨fun _ => false, fun _ => true, fun _ => false⟩ [] "output.parquet" rfl rfl).1

/-- C8: the symlink file name resolution — a configured string is used after
validation (`ValueError` when empty or whitespace-only), a configured
callback is invoked and its result validated (`TypeError` on a non-string,
`ValueError` on a blank string), and otherwise the hardcoded
`"output.parquet"` fallback is used; and any such validation failure
propagates synchronously out of `create_symlink` rather than being
swallowed. -/
theorem symlink_name_resolution (module qualname : String)
    (bound_args : List (String × PyVal)) (result : PolarsResult) (cache_key : String)
    (s : String) (f : String → String → List (String × PyVal) → PolarsResult → String → PyVal)
    (n : Int) (readable_dir blob_path : String) (env : FsEnv) (links : List (String × String)) :
    (pyStripEmpty s = false →
      getSymlinkName (.strCfg s) module qualname bound_args result cache_key = .ok s)
    ∧ (pyStripEmpty s = true →
      getSymlinkName (.strCfg s) module qualname bound_args result cache_key = .error .valueError)
    ∧ (f module qualname bound_args result cache_key = .str s → pyStripEmpty s = false →
      getSymlinkName (.callbackCfg f) module qualname bound_args result cache_key = .ok s)
    ∧ (f module qualname bound_args result cache_key = .str s → pyStripEmpty s = true →
      getSymlinkName (.callbackCfg f) module qualname bound_args result cache_key = .error .valueError)
    ∧ (f module qualname bound_args result cache_key = .int n →
      getSymlinkName (.callbackCfg f) module qualname bound_args result cache_key = .error .typeError)
    ∧ getSymlinkName .noneCfg module qualname bound_args result cache_key = .ok "output.parquet"
    ∧ (∀ (cfg : SymlinkNameCfg) (e : PyErr), env.mkdirFails readable_dir = false →
      getSymlinkName cfg module qualname bound_args result cache_key = .error e →
      createSymlinkM cfg module qualname bound_args result cache_key readable_dir blob_path env links = .error e) := by
  refine ⟨?_, ?_, ?_, ?_, ?_, rfl, ?_⟩
  · intro h
    simp [getSymlinkName, h]
  · intro h
    simp [getSymlinkName, h]
  · intro hf h
    simp [getSymlinkName, hf, h]
  · intro hf h
    simp [getSymlinkName, hf, h]
  · intro hf
    simp [getSymlinkName, hf]
  · intro cfg e hmkdir herr
    unfold createSymlinkM
    rw [hmkdir, herr]
    rfl

/-- C8 witness: concrete resolutions and validation failures. -/
theorem symlink_name_resolution_witness :
    getSymlinkName (.strCfg "name.parquet") "m" "f" [] (.dataFrame 0) "k" = .ok "name.parquet"
    ∧ getSymlinkName (.strCfg " ") "m" "f" [] (.dataFrame 0) "k" = .error .valueError
    ∧ getSymlinkName (.callbackCfg fun _ _ _ _ _ => .int 3) "m" "f" [] (.dataFrame 0) "k" = .error .typeError
    ∧ createSymlinkM (.strCfg " ") "m" "f" [] (.dataFrame 0) "k" "d" "b"
        ⟨fun _ => false, fun _ => false, fun _ => false⟩ [] = .error .valueError := by
  refine ⟨?_, ?_, ?_, ?_⟩
  · exact (symlink_name_resolution "m" "f" [] (.dataFrame 0) "k" "name.parquet"
      (fun _ _ _ _ _ => .int 3) 3 "d" "b" ⟨fun _ => false, fun _ => false, fun _ => false⟩ []).1 rfl
  · exact (symlink_name_resolution "m" "f" [] (.dataFrame 0) "k" " "
      (fun _ _ _ _ _ => .int 3) 3 "d" "b" ⟨fun _ => false, fun _ => false, fun _ => false⟩ []).2.1 (by decide)
  · exact (symlink_name_resolution "m" "f" [] (.dataFrame 0) "k" " "
      (fun _ _ _ _ _ => .int 3) 3 "d" "b" ⟨fun _ => false, fun _ => false, fun _ => false⟩ []).2.2.2.2.1 rfl
  · exact (symlink_name_resolution "m" "f" [] (.dataFrame 0) "k" " "
      (fun _ _ _ _ _ => .int 3) 3 "d" "b" ⟨fun _ => false, fun _ => false, fun _ => false⟩ []).2.2.2.2.2.2
      (.strCfg " ") .valueError rfl
      ((symlink_name_resolution "m" "f" [] (.dataFrame 0) "k" " "
        (fun _ _ _ _ _ => .int 3) 3 "d" "b" ⟨fun _ => false, fun _ => false, fun _ => false⟩ []).2.1
        (by decide))

/-- C6 counterexample: in the split layout the facade's path builder uses the
qualified name raw, so for the qualified name `"a b"` the produced segments
differ from the claim's both-segments-percent-encoded form. -/
theorem split_layout_encoding_counterexample :
    readableBaseSegs "functions" true "m" "a b" ≠ specReadableBaseSegs "functions" true "m" "a b" := by
  decide

/-- C6 amended: in the facade's path builder the split layout nests the
percent-encoded namespace and the raw (unencoded) qualified name as two
segments, while the flat layout collapses both into one percent-encoded
`namespace.qualified_name` segment; the standalone
`CachePathManager.get_readable_path` percent-encodes both segments exactly
as the spec states. -/
theorem readable_layout_characterization (root module_name func_qualname : String) :
    readableBaseSegs root true module_name func_qualname = [root, pyQuote module_name, func_qualname]
    ∧ readableBaseSegs root false module_name func_qualname =
        [root, pyQuote (module_name ++ "." ++ func_qualname)]
    ∧ pmReadableBaseSegs root true module_name func_qualname =
        specReadableBaseSegs root true module_name func_qualname
    ∧ pmReadableBaseSegs root false module_name func_qualname =
        specReadableBaseSegs root false module_name func_qualname :=
  ⟨rfl, rfl, rfl, rfl⟩

theorem hexVal_hexUpper : ∀ m < 16, hexVal (hexUpper m) = m := by decide

theorem utf8Bytes_ascii {c : Char} (h : c.toNat < 128) : utf8Bytes c = [c.toNat] := by
  rw [utf8Bytes]
  exact if_pos h

theorem percentDecodeChars_cons_ne {c : Char} (hc : c ≠ '%') (t : List Char) :
    percentDecodeChars (c :: t) = c :: percentDecodeChars t := by
  match t with
  | [] => rfl
  | [x] => rfl
  | x :: y :: t' =>
    rw [percentDecodeChars, if_neg hc]

theorem quoteSafe_ne_percent {c : Char} (h : isQuoteSafe c = true) : c ≠ '%' := by
  intro hEq
  subst hEq
  exact absurd h (by decide)

theorem percentDecodeChars_quote (l : List Char) (h : ∀ c ∈ l, c.toNat < 128) :
    percentDecodeChars (l.flatMap quoteChar) = l := by
  induction l with
  | nil => rfl
  | cons c rest ih =>
    have hc : c.toNat < 128 := h c (List.mem_cons_self c rest)
    have hrest : ∀ x ∈ rest, x.toNat < 128 := fun x hx => h x (List.mem_cons_of_mem _ hx)
    rw [List.flatMap_cons]
    by_cases hsafe : isQuoteSafe c
    · rw [quoteChar, if_pos hsafe, List.singleton_append,
        percentDecodeChars_cons_ne (quoteSafe_ne_percent hsafe), ih hrest]
    · rw [quoteChar, if_neg hsafe, utf8Bytes_ascii hc]
      simp only [List.flatMap_cons, List.flatMap_nil, List.append_nil, List.cons_append,
        List.nil_append]
      rw [percentDecodeChars, if_pos rfl]
      rw [hexVal_hexUpper _ (by omega), hexVal_hexUpper _ (by omega)]
      rw [ih hrest]
      congr 1
      have : 16 * (c.toNat / 16) + c.toNat % 16 = c.toNat := by omega
      rw [this, Char.ofNat_toNat]

/-- C7: for an argument whose raw string form is longer than the configured
maximum `trim_arg`, the readable entry-name segment is `key=` followed by the
percent-encoding of exactly the first `trim_arg` raw characters — truncation
happens before encoding (in both `_default_entry_dir_name` and the
decorator's args-directory builder) — and percent-decoding the segment value
recovers the first `trim_arg` raw characters (shown for ASCII raw forms) and
not the full value. -/
theorem truncation_before_encoding (trim_arg : Nat) (k s : String)
    (hlong : trim_arg < s.data.length) :
    defaultEntryDirName trim_arg [(k, .str s)] = k ++ "=" ++ pyQuote (pySlice s trim_arg)
    ∧ argsDirName trim_arg [] [(k, .str s)] = k ++ "=" ++ pyQuote (pySlice s trim_arg)
    ∧ ((∀ c ∈ s.data, c.toNat < 128) →
        percentDecode (pyQuote (pySlice s trim_arg)) = pySlice s trim_arg)
    ∧ pySlice s trim_arg ≠ s
    ∧ (pySlice s trim_arg).data = s.data.take trim_arg := by
  refine ⟨rfl, rfl, ?_, ?_, rfl⟩
  · intro hascii
    have htake : ∀ c ∈ s.data.take trim_arg, c.toNat < 128 :=
      fun c hc => hascii c (List.mem_of_mem_take hc)
    show (⟨percentDecodeChars ((pySlice s trim_arg).data.flatMap quoteChar)⟩ : String) = _
    rw [percentDecodeChars_quote _ (by simpa [pySlice] using htake)]
  · intro heq
    have := congrArg (fun t => t.data.length) heq
    simp only [pySlice, List.length_take] at this
    omega

/-- C7 witness: a concrete six-character value truncated to three
characters. -/
theorem truncation_before_encoding_witness :
    defaultEntryDirName 3 [("x", .str "abcdef")] = "x" ++ "=" ++ pyQuote (pySlice "abcdef" 3)
    ∧ percentDecode (pyQuote (pySlice "abcdef" 3)) = pySlice "abcdef" 3
    ∧ pySlice "abcdef" 3 ≠ "abcdef" := by
  obtain ⟨h1, h2, h3, h4, h5⟩ := truncation_before_encoding 3 "x" "abcdef" (by decide)
  exact ⟨h1, h3 (by decide), h4⟩

/-- C9: the convenience entry point lazily constructs one process-wide cache
instance on first use; on subsequent calls it reuses that instance when no
directory is given or the given directory is `Path`-equal to the current
one, and replaces the instance whenever an explicitly configured root cache
directory differs from the current instance's directory. -/
theorem global_cache_lifecycle (cwd tmpdir : String) (c : PCacheInst) (d : String)
    (cache_dir : Option String) (size_limit : Nat) (rdn : String) (smp : Bool) (mal : Nat)
    (sn : Option String) :
    cacheFn .dummy cwd tmpdir cache_dir size_limit rdn smp mal sn =
      .real (mkPolarsCache cwd tmpdir cache_dir size_limit rdn smp mal sn)
    ∧ cacheFn (.real c) cwd tmpdir none size_limit rdn smp mal sn = .real c
    ∧ (pyPathNorm c.cache_dir = pyPathNorm d →
        cacheFn (.real c) cwd tmpdir (some d) size_limit rdn smp mal sn = .real c)
    ∧ (pyPathNorm c.cache_dir ≠ pyPathNorm d →
        cacheFn (.real c) cwd tmpdir (some d) size_limit rdn smp mal sn =
          .real (mkPolarsCache cwd tmpdir (some d) size_limit rdn smp mal sn)) := by
  refine ⟨rfl, rfl, fun h => ?_, fun h => ?_⟩
  · simp [cacheFn, h]
  · simp [cacheFn, h]

/-- C9 witness: an explicit differing directory replaces the instance. -/
theorem global_cache_lifecycle_witness :
    cacheFn (.real ⟨"/a", 5, "functions", true, 50, none⟩) "/cwd" "/tmp" (some "/b") 5
      "functions" true 50 none =
      .real (mkPolarsCache "/cwd" "/tmp" (some "/b") 5 "functions" true 50 none) :=
  (global_cache_lifecycle "/cwd" "/tmp" ⟨"/a", 5, "functions", true, 50, none⟩ "/b"
    (some "/b") 5 "functions" true 50 none).2.2.2 (by decide)

/-! ## Fingerprint claims -/

set_option maxRecDepth 40000 in
/-- C1 counterexample: with the default-valued parameter `n = 5`, the call
passing `n=5` explicitly and the call omitting it produce different cache
keys (`_get_cache_key` hashes the raw `(args, kwargs)` without applying
defaults). -/
theorem fingerprint_default_omission_counterexample :
    getCacheKey "m" "f" [] [("n", .int 5)] ≠ getCacheKey "m" "f" [] [] := by decide

/-- C1 amended: the fingerprint applies no defaults — it is a function of the
raw `(args, kwargs)` as passed, and for every callable identity and keyword
binding the canonical string of the call passing the keyword differs from the
canonical string of the call omitting it, so the two calls are fingerprinted
from different canonical strings. -/
theorem fingerprint_uses_raw_args (module qualname k : String) (v : PyVal) :
    identString module qualname [] [(k, v)] ≠ identString module qualname [] [] := by
  intro heq
  have hdata := congrArg String.data heq
  simp only [identString, String.data_append] at hdata
  have hd := List.append_cancel_left (List.append_cancel_right hdata)
  have hlen := congrArg List.length hd
  simp only [dictRepr, List.map_cons, List.map_nil, joinSep, String.data_append,
    List.length_append, List.length_cons, List.length_nil] at hlen
  omega

end Plcache
